import Mathlib

/-!
Shallow embedding of the Awarri TTS testing repository
(`src/app.py`, `src/data_generation.py`).

Bytes are modelled as `Nat` values (meaningful when `< 256`), byte strings as
`List Nat`.  Wall-clock durations returned by `time.time()` differences are
modelled as rationals (`ℚ`).  The HTTP layer (`requests.post`) is modelled as
an explicit parameter describing the outcome of the single outbound call:
either a reachable response carrying a status code, a body and the elapsed
time from request send to full-body receipt, or a raised
`requests.exceptions.RequestException`.
-/

set_option autoImplicit false

namespace Awarri

/-! ### Base64 (models Python `base64.b64encode` on bytes) -/

/-- The standard base64 alphabet, as used by Python `base64.b64encode`. -/
def base64Table : List Char :=
  "ABCDEFGHIJKLMNOPQRSTUVWXYZabcdefghijklmnopqrstuvwxyz0123456789+/".toList

/-- The base64 character for a 6-bit value. -/
def b64Char (n : Nat) : Char :=
  base64Table.getD n 'A'

/-- The 6-bit value of a base64 character (used only to state the
decode/round-trip property of the encoder). -/
def b64Val (c : Char) : Nat :=
  base64Table.indexOf c

/-- Base64-encode a byte sequence, producing the character stream:
three input bytes become four output characters, with `=` padding for a
trailing group of one or two bytes.  Mirrors `base64.b64encode`. -/
def base64EncodeChars : List Nat → List Char
  | [] => []
  | [a] =>
      let n := a * 65536
      [b64Char (n / 262144 % 64), b64Char (n / 4096 % 64), '=', '=']
  | [a, b] =>
      let n := a * 65536 + b * 256
      [b64Char (n / 262144 % 64), b64Char (n / 4096 % 64), b64Char (n / 64 % 64), '=']
  | a :: b :: c :: rest =>
      let n := a * 65536 + b * 256 + c
      b64Char (n / 262144 % 64) :: b64Char (n / 4096 % 64) :: b64Char (n / 64 % 64) ::
        b64Char (n % 64) :: base64EncodeChars rest

/-- `base64.b64encode(audio_bytes).decode('utf-8')`. -/
def base64Encode (bs : List Nat) : String :=
  String.mk (base64EncodeChars bs)

/-- Base64 decoding of a character stream, used only to state that
`base64EncodeChars` really is base64 (round-trip): `=` padding after the
first two characters of a group marks a one-byte group, after the first
three a two-byte group. -/
def base64DecodeChars : List Char → List Nat
  | w :: x :: y :: z :: rest =>
      if y = '=' then [b64Val w * 4 + b64Val x / 16]
      else if z = '=' then
        [b64Val w * 4 + b64Val x / 16, b64Val x % 16 * 16 + b64Val y / 4]
      else
        let n := b64Val w * 262144 + b64Val x * 4096 + b64Val y * 64 + b64Val z
        n / 65536 :: n / 256 % 256 :: n % 256 :: base64DecodeChars rest
  | _ => []

/-! ### `app.py` lines 16-19: language mapping -/

/-- `AWARRI_LANGUAGE_MAPPING` (`app.py` lines 16-19). -/
def AWARRI_LANGUAGE_MAPPING : List (String × String) :=
  [("hausa", "Hausa"), ("english", "English")]

/-! ### `app.py` lines 99-143: transcription client -/

/-- `encode_audio_to_base64_uri` (`app.py` lines 99-102). -/
def encode_audio_to_base64_uri (audio_bytes : List Nat) : String :=
  "data:audio/wav;base64," ++ base64Encode audio_bytes

/-- The JSON payload sent by `transcribe_with_awarri_new`. -/
structure AsrPayload where
  base64Data : String
  language : String
  deriving DecidableEq, Repr

/-- Python `str.lower()` on the language strings in play (ASCII
lowercasing, character by character). -/
def pyLower (s : String) : String :=
  String.mk (s.toList.map Char.toLower)

/-- The `payload` dict built at `app.py` lines 109-112:
`AWARRI_LANGUAGE_MAPPING.get(language.lower(), "English")`. -/
def asrRequestBody (audio_bytes : List Nat) (language : String) : AsrPayload :=
  { base64Data := encode_audio_to_base64_uri audio_bytes
    language := ((AWARRI_LANGUAGE_MAPPING.lookup (pyLower language)).getD "English") }

/-- Outcome of the single `requests.post` call made by the transcription
client.  `response status json elapsed` is a reachable HTTP response:
`status` the final status code, `json` the result of `response.json()`
(`none` for a malformed JSON body, `some t` for a parsed object where `t` is
its optional `"text"` field), and `elapsed` the wall-clock time from request
send to full-body receipt.  `requestException msg` is a raised
`requests.exceptions.RequestException` (transport failure / timeout). -/
inductive AsrOutcome where
  | response (status : Nat) (json : Option (Option String)) (elapsed : ℚ)
  | requestException (msg : String)

/-- Result dict of `transcribe_with_awarri_new`. -/
structure TranscriptionResult where
  transcription : String
  latency : ℚ
  status : String
  deriving DecidableEq, Repr

/-- Python `round(x, 2)` applied to the measured latency. -/
def round2 (q : ℚ) : ℚ :=
  (round (q * 100) : ℤ) / 100

/-- Models `str(e)` for the `requests.HTTPError` raised by
`response.raise_for_status()` on a 4xx/5xx status (the exact library wording
is abbreviated to the status code it carries). -/
def httpErrorString (status : Nat) : String :=
  toString status ++ " Error"

/-- Models `str(e)` for the `json.JSONDecodeError` raised by
`response.json()` on a malformed body. -/
def jsonDecodeErrorString : String :=
  "Expecting value"

/-- `transcribe_with_awarri_new` (`app.py` lines 104-143).  The whole body
runs inside `try/except Exception`, so every failure is converted into a
result dict with `status='error'`, the message in the `transcription` field
and `latency` `0.0`.  `response.raise_for_status()` raises exactly for
status codes in `[400, 600)`. -/
def transcribe_with_awarri_new (audio_bytes : List Nat) (language : String)
    (net : AsrPayload → AsrOutcome) : TranscriptionResult :=
  let payload := asrRequestBody audio_bytes language
  match net payload with
  | .requestException msg =>
      { transcription := "Error: " ++ msg, latency := 0, status := "error" }
  | .response status json elapsed =>
      if 400 ≤ status ∧ status < 600 then
        { transcription := "Error: " ++ httpErrorString status, latency := 0, status := "error" }
      else
        match json with
        | none =>
            { transcription := "Error: " ++ jsonDecodeErrorString, latency := 0, status := "error" }
        | some text =>
            { transcription := text.getD "", latency := round2 elapsed, status := "success" }

/-- `200 ≤ s ≤ 299`, the 2xx success class of HTTP status codes. -/
def is2xx (s : Nat) : Bool :=
  200 ≤ s ∧ s < 300

/-! ### `app.py` lines 145-196: synthesis client -/

/-- Outcome of the single `requests.post` call made by a synthesis client:
either a reachable response (final status code, raw body bytes, wall-clock
time from request send to full-body receipt) or a raised
`requests.exceptions.RequestException` (transport failure / timeout). -/
inductive TtsOutcome where
  | response (status : Nat) (body : List Nat) (elapsed : ℚ)
  | requestException (msg : String)

/-- Models `response.text`, the textual decoding of the response body, used
only inside displayed error messages. -/
def respText (body : List Nat) : String :=
  toString body

/-- Result of one run of `generate_awarri_audio`: the returned pair
`(audio_base64, latency)`, the texts sent over the wire (one entry per
outbound `requests.post` call actually made), and the `st.error` messages
displayed. -/
structure SynthResult where
  audioBase64 : Option String
  latency : ℚ
  calls : List String
  errors : List String
  deriving DecidableEq, Repr

/-- `generate_awarri_audio` (`app.py` lines 145-196).  `cfg` is
`(AWARRI_TTS_URL, AWARRI_API_KEY)` from the environment, `none` when either
is missing.  Success is exactly status code 200: the body bytes are
base64-encoded and returned with the measured latency.  A non-200 response
returns `(None, latency)` and displays the status code and response body.
A transport failure returns `(None, 0.0)`.  A single `requests.post` call is
made in all reachable branches; there is no retry. -/
def generate_awarri_audio (cfg : Option (String × String)) (net : TtsOutcome)
    (text : String) : SynthResult :=
  match cfg with
  | none =>
      { audioBase64 := none, latency := 0, calls := []
        errors := ["Awarri API credentials not configured"] }
  | some _ =>
      match net with
      | .requestException msg =>
          { audioBase64 := none, latency := 0, calls := [text]
            errors := ["Awarri TTS network error", msg] }
      | .response status body elapsed =>
          if status ≠ 200 then
            { audioBase64 := none, latency := elapsed, calls := [text]
              errors := ["Awarri TTS request failed",
                         "Status: " ++ toString status ++ "\nResponse: " ++ respText body] }
          else
            { audioBase64 := some (base64Encode body), latency := elapsed
              calls := [text], errors := [] }

/-! ### `app.py` lines 49-97: Google Sheets store -/

/-- A spreadsheet cell value as passed to `worksheet.append_row` (the row
lists mix strings and ints). -/
inductive Cell where
  | s (v : String)
  | i (v : Int)
  deriving DecidableEq, Repr

/-- A worksheet, as the ordered list of its (non-empty) rows. -/
abbrev Worksheet := List (List Cell)

/-- The `data` dict prepared by the submit handler (`app.py` lines 357-365). -/
structure SheetData where
  timestamp : String
  userName : String
  naturalness : Int
  accuracy : Int
  numbers : Int
  mtn : Int
  comment : String
  deriving DecidableEq, Repr

/-- The header row appended at `app.py` lines 71-80. -/
def headerRow : List Cell :=
  [.s "Timestamp", .s "User Name", .s "Naturalness Score", .s "Accuracy Score",
   .s "Pronouncing Numbers Score", .s "Pronouncing MTN Lingo Score", .s "Overall Comment"]

/-- The data row appended at `app.py` lines 83-92, values in the same column
order as the header. -/
def dataRow (d : SheetData) : List Cell :=
  [.s d.timestamp, .s d.userName, .i d.naturalness, .i d.accuracy,
   .i d.numbers, .i d.mtn, .s d.comment]

/-- Backend configuration: whether `get_google_sheets_client()` yields a
usable client (it returns `None` on missing or bad credentials), and the
`GOOGLE_SHEET_ID` if configured. -/
structure SheetsEnv where
  client : Bool
  sheetId : Option String

/-- `worksheet.row_values(1)`: the values of the first row (empty for an
empty sheet). -/
def row_values1 (ws : Worksheet) : List Cell :=
  ws.headD []

/-- `save_to_google_sheets` (`app.py` lines 49-97) against a reachable
backend whose remote operations all succeed: returns the worksheet after
the call together with the boolean result.  Missing client or missing sheet
id returns `False` before any write.  If `row_values(1)` is empty the
header row is appended first; then the single data row is appended.
`save_to_google_sheets_fallible` below refines this with the backend's
per-operation failures made explicit. -/
def save_to_google_sheets (env : SheetsEnv) (ws : Worksheet) (data : SheetData) :
    Worksheet × Bool :=
  if env.client = false then (ws, false)
  else
    match env.sheetId with
    | none => (ws, false)
    | some _ =>
        let ws1 := if row_values1 ws = [] then ws ++ [headerRow] else ws
        (ws1 ++ [dataRow data], true)

/-- Behaviour of the remote backend during one `save_to_google_sheets`
call: whether each gspread operation raises.  `openFails`:
`client.open_by_key` / `spreadsheet.sheet1` raises (backend unreachable or
bad sheet id).  `rowValuesFails`: `worksheet.row_values(1)` raises — this
lands in the inner `except` of `app.py` lines 66-80, which then treats the
sheet as header-less.  `appendHeaderFails` / `appendDataFails`: the header
`append_row` (line 80) resp. the data `append_row` (line 92) raises.  Every
raised operation other than `row_values` reaches the outer `except` of
`app.py` lines 95-97, which returns `False`. -/
structure Backend where
  openFails : Bool
  rowValuesFails : Bool
  appendHeaderFails : Bool
  appendDataFails : Bool

/-- `save_to_google_sheets` (`app.py` lines 49-97) with the backend's
fallibility explicit.  The operations run in source order: configuration
checks (no backend contact), `open_by_key`, the inner
`row_values(1)`/header `try`, the header `append_row` when the sheet has no
header (or `row_values` itself raised), then the data `append_row`.  A
raised operation returns `False` with exactly the rows appended by the
operations that already succeeded left in place: in particular a data
append failing after the header append leaves a header-only partial
write. -/
def save_to_google_sheets_fallible (env : SheetsEnv) (be : Backend)
    (ws : Worksheet) (data : SheetData) : Worksheet × Bool :=
  if env.client = false then (ws, false)
  else
    match env.sheetId with
    | none => (ws, false)
    | some _ =>
        if be.openFails = true then (ws, false)
        else if be.rowValuesFails = true ∨ row_values1 ws = [] then
          if be.appendHeaderFails = true then (ws, false)
          else if be.appendDataFails = true then (ws ++ [headerRow], false)
          else (ws ++ [headerRow] ++ [dataRow data], true)
        else
          if be.appendDataFails = true then (ws, false)
          else (ws ++ [dataRow data], true)

/-! ### `app.py` lines 276-374: evaluation tab -/

/-- `st.number_input(label, 1, 10, 5)`: the widget only ever yields a value
inside `[min_value, max_value]` — the entered value is clamped/validated to
the range, and the default is returned when the user entered nothing. -/
def number_input (lo hi default : Int) (entered : Option Int) : Int :=
  match entered with
  | none => default
  | some v => if v < lo then lo else if hi < v then hi else v

/-- One run of the evaluation tab (`app.py` lines 276-374), from the name
gate to the submit handler.  `user_name` is the text input (line 276;
Python `if not user_name` is true exactly for the empty string),
`hasAudio` is `any(audio_files.values())` (line 283), `clicked` is the
Submit-Evaluation button state (line 353), `now` is
`datetime.now().strftime(...)`, and the four `Option Int` arguments are the
raw values entered into the overall-score `st.number_input` widgets
(lines 338-346).  Returns the worksheet after the run and whether the
submission was saved. -/
def tab1Run (user_name : String) (hasAudio clicked : Bool) (env : SheetsEnv)
    (ws : Worksheet) (now : String) (eNat eAcc eNum eMtn : Option Int)
    (comment : String) : Worksheet × Bool :=
  if user_name = "" then (ws, false)
  else if hasAudio = false then (ws, false)
  else
    let naturalness := number_input 1 10 5 eNat
    let accuracy := number_input 1 10 5 eAcc
    let numbers := number_input 1 10 5 eNum
    let mtn := number_input 1 10 5 eMtn
    if clicked then
      if user_name ≠ "" then
        save_to_google_sheets env ws
          { timestamp := now, userName := user_name, naturalness := naturalness,
            accuracy := accuracy, numbers := numbers, mtn := mtn, comment := comment }
      else (ws, false)
    else (ws, false)

/-! ### `data_generation.py` -/

/-- `TEXTS` (`data_generation.py` lines 27-47, identical to `app.py`
lines 227-247), in Python dict insertion order: short, medium, long. -/
def TEXTS : List (String × List String) :=
  [("short",
    ["Sannu! Ta yaya zan iya taimaka maka yau?",
     "Don Allah jira ɗan lokaci.",
     "Ana sarrafa buƙatarka.",
     "Na gode da tuntuɓar MTN.",
     "Shigarwar ba daidai ba, don Allah gwada kuma."]),
   ("medium",
    ["Adadin bayananka shi ne ₦600. Zai ƙare a ranar 20 ga Oktoba. Latsa *131# don siyan ƙari.",
     "Zan iya taimaka maka da airtime, data ko matsalar asusu. Me kake son yi?",
     "Kana da shirin bayanai guda ɗaya mai aiki yanzu. Kana so ka kalla ko ka soke shi?",
     "Yi hakuri, ban ji hakan ba. Za ka iya maimaitawa?"]),
   ("long",
    ["Barka da zuwa MTN Sashen Kula da Abokan Hulɗa. Zaka iya siyan bayanai, cajar airtime, bincika balance ɗinka, ko neman taimako kan asusunka. Don Allah zaɓi zaɓi don ci gaba.",
     "Mun lura cewa ka yi amfani da kashi 80% na bayananka. Don guje wa katsewa, zaka iya ƙara bayananka ta *131# ko ta cikin MTN app.",
     "SIM ɗinka ba a gama rajista ba don wasu ayyuka. Don kammala, je cibiyar MTN mafi kusa tare da sahihin ID. Mun gode da fahimtarka.",
     "Airtime ɗinka bai isa kammala wannan mu\x27amala ba. Don Allah caji layinka sannan ka sake gwadawa. Latsa *555*PIN# don caji."])]

/-- `synthesize_awarri_tts` (`data_generation.py` lines 52-71):
status 200 yields the raw body bytes; any other status raises
`RuntimeError` with the status code and response text; a raised
`requests.exceptions.RequestException` propagates uncaught.  `net` gives the
outcome of the single `requests.post` call for a given text. -/
def synthesize_awarri_tts (net : String → TtsOutcome) (text : String) :
    Except String (List Nat) :=
  match net text with
  | .requestException msg => .error msg
  | .response status body _ =>
      if status ≠ 200 then
        .error ("Awarri TTS failed (" ++ toString status ++ "): " ++ respText body)
      else .ok body

/-- One corpus entry as iterated by `run_batch_tts`: category, 1-based index
within the category, reference text. -/
structure BatchEntry where
  category : String
  index : Nat
  text : String
  deriving DecidableEq, Repr

/-- `OUTPUT_DIR / filename` for an entry:
`hausa_audio/Hausa_{category}_audio{idx}.wav`. -/
def entryPath (category : String) (index : Nat) : String :=
  "hausa_audio/Hausa_" ++ category ++ "_audio" ++ toString index ++ ".wav"

/-- Number the texts of one category, `enumerate(texts, start=1)`. -/
def numberTexts (category : String) : List String → Nat → List BatchEntry
  | [], _ => []
  | t :: ts, idx => { category := category, index := idx, text := t } :: numberTexts category ts (idx + 1)

/-- The flattened iteration of the two nested loops of `run_batch_tts`
(`data_generation.py` lines 77-78). -/
def batchEntries : List BatchEntry :=
  TEXTS.flatMap fun ct => numberTexts ct.1 ct.2 1

/-- One file written by the batch driver. -/
structure FsWrite where
  path : String
  content : List Nat
  deriving DecidableEq, Repr

/-- The body of `run_batch_tts` over a list of remaining entries: the files
written (in order) and, when a synthesis call raises, the propagated
exception message — the loop stops there and later entries are not
processed.  There is no try/except around the loop body. -/
def runBatchGo (net : String → TtsOutcome) : List BatchEntry → List FsWrite × Option String
  | [] => ([], none)
  | e :: rest =>
      match synthesize_awarri_tts net e.text with
      | .error msg => ([], some msg)
      | .ok bytes =>
          ({ path := entryPath e.category e.index, content := bytes } ::
              (runBatchGo net rest).1,
           (runBatchGo net rest).2)

/-- `run_batch_tts` (`data_generation.py` lines 76-91). -/
def run_batch_tts (net : String → TtsOutcome) : List FsWrite × Option String :=
  runBatchGo net batchEntries

/-- A local filesystem as a map from path to file contents. -/
def Fs : Type := String → Option (List Nat)

/-- `open(path, "wb")` followed by a full write: truncates/overwrites any
existing file at that path. -/
def writeFile (fs : Fs) (w : FsWrite) : Fs :=
  fun p => if p = w.path then some w.content else fs p

/-- Apply the writes of a batch run, in order, to a filesystem. -/
def applyWrites (fs : Fs) (ws : List FsWrite) : Fs :=
  ws.foldl writeFile fs

/-- Whether the synthesis call for an entry succeeds (status 200). -/
def entryOk (net : String → TtsOutcome) (e : BatchEntry) : Bool :=
  (synthesize_awarri_tts net e.text).isOk

/-- An all-success synthesis stub: every call returns a 200 response with
body `f t` after `q t` seconds. -/
def allSuccessNet (f : String → List Nat) (q : String → ℚ) : String → TtsOutcome :=
  fun t => .response 200 (f t) (q t)

/-! ### Helper lemmas -/

theorem b64Val_b64Char : ∀ m < 64, b64Val (b64Char m) = m := by decide

theorem b64Char_ne_pad : ∀ m < 64, b64Char m ≠ '=' := by decide

example : base64Encode [77, 97, 110] = "TWFu" := by decide

example : base64Encode [77, 97] = "TWE=" := by decide

example : base64Encode [77] = "TQ==" := by decide

example : base64Encode [] = "" := by decide

/-- Decoding inverts encoding on genuine byte sequences: the encoder really
is base64. -/
theorem base64_roundtrip : ∀ bs : List Nat, (∀ b ∈ bs, b < 256) →
    base64DecodeChars (base64EncodeChars bs) = bs := by
  intro bs
  induction bs using base64EncodeChars.induct with
  | case1 =>
      intro _
      simp [base64EncodeChars, base64DecodeChars]
  | case2 a =>
      intro h
      have ha : a < 256 := h a (by simp)
      have e1 := b64Val_b64Char (a * 65536 / 262144 % 64) (Nat.mod_lt _ (by norm_num))
      have e2 := b64Val_b64Char (a * 65536 / 4096 % 64) (Nat.mod_lt _ (by norm_num))
      simp only [base64EncodeChars, base64DecodeChars, if_true, eq_self_iff_true, e1, e2]
      simp only [List.cons.injEq, and_true]
      omega
  | case3 a b =>
      intro h
      have ha : a < 256 := h a (by simp)
      have hb : b < 256 := h b (by simp)
      have hy : b64Char ((a * 65536 + b * 256) / 64 % 64) ≠ '=' :=
        b64Char_ne_pad _ (Nat.mod_lt _ (by norm_num))
      have e1 := b64Val_b64Char ((a * 65536 + b * 256) / 262144 % 64) (Nat.mod_lt _ (by norm_num))
      have e2 := b64Val_b64Char ((a * 65536 + b * 256) / 4096 % 64) (Nat.mod_lt _ (by norm_num))
      have e3 := b64Val_b64Char ((a * 65536 + b * 256) / 64 % 64) (Nat.mod_lt _ (by norm_num))
      simp only [base64EncodeChars, base64DecodeChars, if_neg hy, if_true,
        eq_self_iff_true, e1, e2, e3]
      simp only [List.cons.injEq, and_true]
      omega
  | case4 a b c rest ih =>
      intro h
      have ha : a < 256 := h a (by simp)
      have hb : b < 256 := h b (by simp)
      have hc : c < 256 := h c (by simp)
      have hy : b64Char ((a * 65536 + b * 256 + c) / 64 % 64) ≠ '=' :=
        b64Char_ne_pad _ (Nat.mod_lt _ (by norm_num))
      have hz : b64Char ((a * 65536 + b * 256 + c) % 64) ≠ '=' :=
        b64Char_ne_pad _ (Nat.mod_lt _ (by norm_num))
      have e1 := b64Val_b64Char ((a * 65536 + b * 256 + c) / 262144 % 64)
        (Nat.mod_lt _ (by norm_num))
      have e2 := b64Val_b64Char ((a * 65536 + b * 256 + c) / 4096 % 64)
        (Nat.mod_lt _ (by norm_num))
      have e3 := b64Val_b64Char ((a * 65536 + b * 256 + c) / 64 % 64)
        (Nat.mod_lt _ (by norm_num))
      have e4 := b64Val_b64Char ((a * 65536 + b * 256 + c) % 64)
        (Nat.mod_lt _ (by norm_num))
      have ih' := ih (fun v hm => h v (by simp [hm]))
      simp only [base64EncodeChars, base64DecodeChars, if_neg hy, if_neg hz,
        e1, e2, e3, e4, ih']
      simp only [List.cons.injEq, and_true]
      omega

/-! ### Claims about the transcription client -/

/-- C8: for every audio byte sequence passed to transcribe, the transmitted
request body carries the audio base64-encoded and wrapped exactly as
`data:audio/wav;base64,<base64 of the bytes>` in the `base64Data` field;
moreover the encoding really is base64 (decoding it returns the original
bytes). -/
theorem claim_C8 (audio : List Nat) (language : String) (h : ∀ b ∈ audio, b < 256) :
    (asrRequestBody audio language).base64Data =
      "data:audio/wav;base64," ++ base64Encode audio ∧
    base64DecodeChars (base64EncodeChars audio) = audio :=
  ⟨rfl, base64_roundtrip audio h⟩

/-- Witness for C8 at the byte sequence of `Man` (base64 `TWFu`). -/
theorem claim_C8_witness :
    (∀ b ∈ [77, 97, 110], b < 256) ∧
    ((asrRequestBody [77, 97, 110] "hausa").base64Data =
      "data:audio/wav;base64," ++ base64Encode [77, 97, 110] ∧
    base64DecodeChars (base64EncodeChars [77, 97, 110]) = [77, 97, 110]) :=
  ⟨by decide, claim_C8 [77, 97, 110] "hausa" (by decide)⟩

/-- C9: every language string outside the known mapping
`{hausa, english}` (after lowercasing) makes the transcription request use
the `English` language value rather than failing. -/
theorem claim_C9 (audio : List Nat) (language : String)
    (h1 : pyLower language ≠ "hausa") (h2 : pyLower language ≠ "english") :
    (asrRequestBody audio language).language = "English" := by
  have b1 : (pyLower language == "hausa") = false := beq_eq_false_iff_ne.mpr h1
  have b2 : (pyLower language == "english") = false := beq_eq_false_iff_ne.mpr h2
  simp [asrRequestBody, AWARRI_LANGUAGE_MAPPING, List.lookup, b1, b2]

/-- Witness for C9 at the unknown language `Yoruba`. -/
theorem claim_C9_witness :
    pyLower "Yoruba" ≠ "hausa" ∧ pyLower "Yoruba" ≠ "english" ∧
    (asrRequestBody [] "Yoruba").language = "English" :=
  ⟨by decide, by decide, claim_C9 [] "Yoruba" (by decide) (by decide)⟩

/-- C10 counterexample: the claim says every non-2xx HTTP status yields a
result with status `error`, but `raise_for_status` only raises for statuses
in `[400, 600)`: a reachable status-300 response with a valid JSON body is
reported as `success`. -/
theorem claim_C10_counterexample :
    is2xx 300 = false ∧
    (transcribe_with_awarri_new [] "hausa"
        (fun _ => .response 300 (some (some "ok")) 1)).status = "success" ∧
    (transcribe_with_awarri_new [] "hausa"
        (fun _ => .response 300 (some (some "ok")) 1)).transcription = "ok" := by
  refine ⟨by decide, by decide, by decide⟩

/-- C10 as amended: transcribe is total over its inputs and every failure it
actually catches — a transport error, an HTTP status in `[400, 600)` (the
statuses `raise_for_status` raises on), or a malformed JSON body — yields a
result with status `error`, the error message embedded in the transcription
field, and a reported latency of exactly `0.0`; a response whose status lies
outside `[400, 600)` (even a non-2xx one) with a parseable body is treated
as success. -/
theorem claim_C10_amended (audio : List Nat) (language : String)
    (net : AsrPayload → AsrOutcome) :
    (∀ msg, net (asrRequestBody audio language) = .requestException msg →
        transcribe_with_awarri_new audio language net =
          { transcription := "Error: " ++ msg, latency := 0, status := "error" }) ∧
    (∀ s j e, net (asrRequestBody audio language) = .response s j e →
        400 ≤ s → s < 600 →
        transcribe_with_awarri_new audio language net =
          { transcription := "Error: " ++ httpErrorString s, latency := 0,
            status := "error" }) ∧
    (∀ s e, net (asrRequestBody audio language) = .response s none e →
        ¬(400 ≤ s ∧ s < 600) →
        transcribe_with_awarri_new audio language net =
          { transcription := "Error: " ++ jsonDecodeErrorString, latency := 0,
            status := "error" }) ∧
    (∀ s t e, net (asrRequestBody audio language) = .response s (some t) e →
        ¬(400 ≤ s ∧ s < 600) →
        transcribe_with_awarri_new audio language net =
          { transcription := t.getD "", latency := round2 e, status := "success" }) := by
  refine ⟨fun msg hm => ?_, fun s j e hm h1 h2 => ?_, fun s e hm hne => ?_,
    fun s t e hm hne => ?_⟩
  · simp [transcribe_with_awarri_new, hm]
  · simp only [transcribe_with_awarri_new, hm]
    rw [if_pos ⟨h1, h2⟩]
  · simp only [transcribe_with_awarri_new, hm]
    rw [if_neg hne]
  · simp only [transcribe_with_awarri_new, hm]
    rw [if_neg hne]

/-! ### Claims about the synthesis client -/

/-- C7: for every non-empty input text (and configured credentials), the
synthesis client returns the audio payload paired with the wall-clock
latency from request send to full-body receipt on a 200 response; a non-200
response yields no audio and surfaces an error carrying the status code and
response body; a transport failure yields no audio and surfaces a network
error; and in every case exactly one outbound call is made, with no
retry. -/
theorem claim_C7 (cfg : String × String) (text : String) (_hne : text ≠ "") :
    (∀ body elapsed,
        generate_awarri_audio (some cfg) (.response 200 body elapsed) text =
          { audioBase64 := some (base64Encode body), latency := elapsed,
            calls := [text], errors := [] }) ∧
    (∀ status body elapsed, status ≠ 200 →
        (generate_awarri_audio (some cfg) (.response status body elapsed) text).audioBase64
            = none ∧
        (generate_awarri_audio (some cfg) (.response status body elapsed) text).latency
            = elapsed ∧
        ("Status: " ++ toString status ++ "\nResponse: " ++ respText body) ∈
          (generate_awarri_audio (some cfg) (.response status body elapsed) text).errors) ∧
    (∀ msg,
        generate_awarri_audio (some cfg) (.requestException msg) text =
          { audioBase64 := none, latency := 0, calls := [text],
            errors := ["Awarri TTS network error", msg] }) ∧
    (∀ net, (generate_awarri_audio (some cfg) net text).calls = [text]) := by
  refine ⟨fun body elapsed => ?_, fun status body elapsed hs => ?_, fun msg => ?_,
    fun net => ?_⟩
  · simp [generate_awarri_audio]
  · refine ⟨?_, ?_, ?_⟩ <;> simp [generate_awarri_audio, hs]
  · simp [generate_awarri_audio]
  · cases net with
    | response s b e =>
        by_cases hs : s = 200 <;> simp [generate_awarri_audio, hs]
    | requestException m => simp [generate_awarri_audio]

/-- Witness for C7 at the text `Sannu` and a concrete configuration. -/
theorem claim_C7_witness :
    ("Sannu" : String) ≠ "" ∧
    ((∀ body elapsed,
        generate_awarri_audio (some ("url", "key")) (.response 200 body elapsed) "Sannu" =
          { audioBase64 := some (base64Encode body), latency := elapsed,
            calls := ["Sannu"], errors := [] }) ∧
    (∀ status body elapsed, status ≠ 200 →
        (generate_awarri_audio (some ("url", "key"))
            (.response status body elapsed) "Sannu").audioBase64 = none ∧
        (generate_awarri_audio (some ("url", "key"))
            (.response status body elapsed) "Sannu").latency = elapsed ∧
        ("Status: " ++ toString status ++ "\nResponse: " ++ respText body) ∈
          (generate_awarri_audio (some ("url", "key"))
            (.response status body elapsed) "Sannu").errors) ∧
    (∀ msg,
        generate_awarri_audio (some ("url", "key")) (.requestException msg) "Sannu" =
          { audioBase64 := none, latency := 0, calls := ["Sannu"],
            errors := ["Awarri TTS network error", msg] }) ∧
    (∀ net, (generate_awarri_audio (some ("url", "key")) net "Sannu").calls = ["Sannu"])) :=
  ⟨by decide, claim_C7 ("url", "key") "Sannu" (by decide)⟩

/-! ### Claims about the evaluation store -/

theorem number_input_range (e : Option Int) :
    1 ≤ number_input 1 10 5 e ∧ number_input 1 10 5 e ≤ 10 := by
  cases e with
  | none =>
      simp only [number_input]
      omega
  | some v =>
      simp only [number_input]
      split_ifs <;> omega

/-- A run of the evaluation tab either leaves the store untouched or hands
exactly the prepared submit payload to `save_to_google_sheets`. -/
theorem tab1Run_eq (user_name : String) (hasAudio clicked : Bool) (env : SheetsEnv)
    (ws : Worksheet) (now : String) (eNat eAcc eNum eMtn : Option Int)
    (comment : String) :
    tab1Run user_name hasAudio clicked env ws now eNat eAcc eNum eMtn comment
      = (ws, false) ∨
    tab1Run user_name hasAudio clicked env ws now eNat eAcc eNum eMtn comment
      = save_to_google_sheets env ws
          { timestamp := now, userName := user_name,
            naturalness := number_input 1 10 5 eNat,
            accuracy := number_input 1 10 5 eAcc,
            numbers := number_input 1 10 5 eNum,
            mtn := number_input 1 10 5 eMtn, comment := comment } := by
  unfold tab1Run
  split_ifs <;> simp

/-- Every row present after a `save_to_google_sheets` call is a
pre-existing row, the header row, or the data row of the saved record. -/
theorem save_mem (env : SheetsEnv) (ws : Worksheet) (d : SheetData) (r : List Cell)
    (hr : r ∈ (save_to_google_sheets env ws d).1) :
    r ∈ ws ∨ r = headerRow ∨ r = dataRow d := by
  obtain ⟨client, sheetId⟩ := env
  cases client with
  | false =>
      have heq : save_to_google_sheets ⟨false, sheetId⟩ ws d = (ws, false) := by
        simp [save_to_google_sheets]
      rw [heq] at hr
      exact Or.inl hr
  | true =>
      cases sheetId with
      | none =>
          have heq : save_to_google_sheets ⟨true, none⟩ ws d = (ws, false) := by
            simp [save_to_google_sheets]
          rw [heq] at hr
          exact Or.inl hr
      | some sid =>
          by_cases hrow : row_values1 ws = []
          · have heq : save_to_google_sheets ⟨true, some sid⟩ ws d =
                ((ws ++ [headerRow]) ++ [dataRow d], true) := by
              simp [save_to_google_sheets, hrow]
            rw [heq] at hr
            rcases List.mem_append.mp hr with h | h
            · rcases List.mem_append.mp h with h' | h'
              · exact Or.inl h'
              · exact Or.inr (Or.inl (List.mem_singleton.mp h'))
            · exact Or.inr (Or.inr (List.mem_singleton.mp h))
          · have heq : save_to_google_sheets ⟨true, some sid⟩ ws d =
                (ws ++ [dataRow d], true) := by
              simp [save_to_google_sheets, hrow]
            rw [heq] at hr
            rcases List.mem_append.mp hr with h | h
            · exact Or.inl h
            · exact Or.inr (Or.inr (List.mem_singleton.mp h))

/-- C1: every row the evaluation tab persists to the store is either a
pre-existing row, the header row, or a data row whose four score fields all
lie in `[1, 10]`: the score widgets clamp/validate every entered value to
that range, so no out-of-range `ScoreSet` reaches the store. -/
theorem claim_C1 (user_name : String) (hasAudio clicked : Bool) (env : SheetsEnv)
    (ws : Worksheet) (now : String) (eNat eAcc eNum eMtn : Option Int)
    (comment : String) (r : List Cell)
    (hr : r ∈ (tab1Run user_name hasAudio clicked env ws now eNat eAcc eNum eMtn comment).1) :
    r ∈ ws ∨ r = headerRow ∨
      ∃ d : SheetData, r = dataRow d ∧
        1 ≤ d.naturalness ∧ d.naturalness ≤ 10 ∧
        1 ≤ d.accuracy ∧ d.accuracy ≤ 10 ∧
        1 ≤ d.numbers ∧ d.numbers ≤ 10 ∧
        1 ≤ d.mtn ∧ d.mtn ≤ 10 := by
  have hnat := number_input_range eNat
  have hacc := number_input_range eAcc
  have hnum := number_input_range eNum
  have hmtn := number_input_range eMtn
  rcases tab1Run_eq user_name hasAudio clicked env ws now eNat eAcc eNum eMtn comment
    with heq | heq
  · rw [heq] at hr
    exact Or.inl hr
  · rw [heq] at hr
    rcases save_mem env ws _ r hr with h | h | h
    · exact Or.inl h
    · exact Or.inr (Or.inl h)
    · exact Or.inr (Or.inr ⟨_, h, hnat.1, hnat.2, hacc.1, hacc.2, hnum.1, hnum.2,
        hmtn.1, hmtn.2⟩)

/-- Witness for C1: a submitted run with entered scores `42, 0, 7, (default)`
persists a data row with the clamped scores `10, 1, 7, 5`. -/
theorem claim_C1_witness :
    dataRow ⟨"2026-01-01 00:00:00", "Ada", 10, 1, 7, 5, "ok"⟩ ∈
      (tab1Run "Ada" true true ⟨true, some "sheet"⟩ [] "2026-01-01 00:00:00"
        (some 42) (some 0) (some 7) none "ok").1 ∧
    (dataRow ⟨"2026-01-01 00:00:00", "Ada", 10, 1, 7, 5, "ok"⟩ ∈ ([] : Worksheet) ∨
     dataRow ⟨"2026-01-01 00:00:00", "Ada", 10, 1, 7, 5, "ok"⟩ = headerRow ∨
     ∃ d : SheetData,
        dataRow ⟨"2026-01-01 00:00:00", "Ada", 10, 1, 7, 5, "ok"⟩ = dataRow d ∧
        1 ≤ d.naturalness ∧ d.naturalness ≤ 10 ∧
        1 ≤ d.accuracy ∧ d.accuracy ≤ 10 ∧
        1 ≤ d.numbers ∧ d.numbers ≤ 10 ∧
        1 ≤ d.mtn ∧ d.mtn ≤ 10) :=
  ⟨by decide, claim_C1 "Ada" true true ⟨true, some "sheet"⟩ [] "2026-01-01 00:00:00"
    (some 42) (some 0) (some 7) none "ok" _ (by decide)⟩

/-- C2: a run of the evaluation tab with an empty evaluator name is rejected
before persisting anything: the worksheet is unchanged (zero append calls)
and no successful save is reported. -/
theorem claim_C2 (hasAudio clicked : Bool) (env : SheetsEnv) (ws : Worksheet)
    (now : String) (eNat eAcc eNum eMtn : Option Int) (comment : String) :
    tab1Run "" hasAudio clicked env ws now eNat eAcc eNum eMtn comment = (ws, false) := by
  simp [tab1Run]

/-- C3: an append against a fresh target (no existing header) writes exactly
one header row — columns exactly `Timestamp, User Name, Naturalness Score,
Accuracy Score, Pronouncing Numbers Score, Pronouncing MTN Lingo Score,
Overall Comment`, in that order — followed by exactly one data row with the
record values in the same column order; an append against a target whose
first row is already non-empty appends only the data row and never rewrites
the header. -/
theorem claim_C3 (env : SheetsEnv) (hc : env.client = true) (sid : String)
    (hs : env.sheetId = some sid) (d1 d2 : SheetData) (ws : Worksheet)
    (hws : row_values1 ws ≠ []) :
    save_to_google_sheets env [] d1 =
      ([[Cell.s "Timestamp", Cell.s "User Name", Cell.s "Naturalness Score",
         Cell.s "Accuracy Score", Cell.s "Pronouncing Numbers Score",
         Cell.s "Pronouncing MTN Lingo Score", Cell.s "Overall Comment"],
        [Cell.s d1.timestamp, Cell.s d1.userName, Cell.i d1.naturalness,
         Cell.i d1.accuracy, Cell.i d1.numbers, Cell.i d1.mtn, Cell.s d1.comment]],
       true) ∧
    save_to_google_sheets env ws d2 = (ws ++ [dataRow d2], true) := by
  constructor
  · simp [save_to_google_sheets, hc, hs, row_values1, headerRow, dataRow]
  · simp [save_to_google_sheets, hc, hs, hws]

/-- Witness for C3: a first append on an empty sheet, then a second append
on the resulting non-empty sheet. -/
theorem claim_C3_witness :
    (⟨true, some "sheet"⟩ : SheetsEnv).client = true ∧
    (⟨true, some "sheet"⟩ : SheetsEnv).sheetId = some "sheet" ∧
    row_values1 [headerRow] ≠ [] ∧
    (save_to_google_sheets ⟨true, some "sheet"⟩ [] ⟨"t1", "Ada", 5, 5, 5, 5, "c1"⟩ =
      ([[Cell.s "Timestamp", Cell.s "User Name", Cell.s "Naturalness Score",
         Cell.s "Accuracy Score", Cell.s "Pronouncing Numbers Score",
         Cell.s "Pronouncing MTN Lingo Score", Cell.s "Overall Comment"],
        [Cell.s "t1", Cell.s "Ada", Cell.i 5, Cell.i 5, Cell.i 5, Cell.i 5,
         Cell.s "c1"]], true) ∧
     save_to_google_sheets ⟨true, some "sheet"⟩ [headerRow] ⟨"t2", "Bob", 6, 6, 6, 6, "c2"⟩ =
      ([headerRow] ++ [dataRow ⟨"t2", "Bob", 6, 6, 6, 6, "c2"⟩], true)) :=
  ⟨rfl, rfl, by decide,
    claim_C3 ⟨true, some "sheet"⟩ rfl "sheet" rfl ⟨"t1", "Ada", 5, 5, 5, 5, "c1"⟩
      ⟨"t2", "Bob", 6, 6, 6, 6, "c2"⟩ [headerRow] (by decide)⟩

/-- On a backend whose operations all succeed, the fallible model agrees
with `save_to_google_sheets`: the latter is the reliable special case. -/
theorem save_fallible_refines (env : SheetsEnv) (ws : Worksheet) (d : SheetData) :
    save_to_google_sheets_fallible env ⟨false, false, false, false⟩ ws d =
      save_to_google_sheets env ws d := by
  obtain ⟨c, sid⟩ := env
  cases c <;> rcases sid with _ | s <;> by_cases hrow : row_values1 ws = [] <;>
    simp [save_to_google_sheets_fallible, save_to_google_sheets, hrow]

/-- C5 counterexample: the claim says a failing append performs no partial
write — either every row of the call is written or none is.  But the two
`append_row` calls are separate remote operations with no transaction: when
the backend becomes unreachable between them, the header append lands and
the data append raises into the outer `except`, so the failed call leaves a
header-only partial write — the store changed although the data row was
never written. -/
theorem claim_C5_counterexample :
    save_to_google_sheets_fallible ⟨true, some "sheet"⟩ ⟨false, false, false, true⟩ []
        ⟨"t", "Ada", 5, 5, 5, 5, "c"⟩ = ([headerRow], false) ∧
    ([headerRow] : Worksheet) ≠ ([] : Worksheet) ∧
    dataRow ⟨"t", "Ada", 5, 5, 5, 5, "c"⟩ ∉ ([headerRow] : Worksheet) :=
  ⟨by decide, by decide, by decide⟩

/-- C5 as amended: a misconfigured backend (no usable client or no sheet
id) fails before any backend contact and writes nothing; a backend
unreachable before the first write (`open_by_key` fails) likewise writes
nothing; every failed append call reports `False` — the session is not
considered submitted — and never writes the data row, leaving at worst a
header-only partial write; a call that reports success wrote exactly the
data row, preceded by the header row on a header-less sheet. -/
theorem claim_C5_amended (env : SheetsEnv) (be : Backend) (ws : Worksheet)
    (d : SheetData) :
    (env.client = false ∨ env.sheetId = none →
        save_to_google_sheets_fallible env be ws d = (ws, false)) ∧
    (be.openFails = true →
        save_to_google_sheets_fallible env be ws d = (ws, false)) ∧
    ((save_to_google_sheets_fallible env be ws d).2 = false →
        (save_to_google_sheets_fallible env be ws d).1 = ws ∨
        (save_to_google_sheets_fallible env be ws d).1 = ws ++ [headerRow]) ∧
    ((save_to_google_sheets_fallible env be ws d).2 = true →
        (save_to_google_sheets_fallible env be ws d).1 = ws ++ [dataRow d] ∨
        (save_to_google_sheets_fallible env be ws d).1 = ws ++ [headerRow] ++ [dataRow d]) := by
  obtain ⟨c, sid⟩ := env
  obtain ⟨o, rv, ah, ad⟩ := be
  cases c <;> rcases sid with _ | s <;> cases o <;> cases rv <;> cases ah <;> cases ad <;>
    by_cases hrow : row_values1 ws = [] <;>
    refine ⟨?_, ?_, ?_, ?_⟩ <;>
    simp [save_to_google_sheets_fallible, hrow]

/-! ### Claims about the batch generation driver -/

theorem applyWrites_not_mem : ∀ (ws : List FsWrite) (fs : Fs) (p : String),
    p ∉ ws.map FsWrite.path → applyWrites fs ws p = fs p := by
  intro ws
  induction ws with
  | nil =>
      intro fs p _
      rfl
  | cons w ws ih =>
      intro fs p hp
      simp only [List.map_cons, List.mem_cons, not_or] at hp
      have hstep : applyWrites fs (w :: ws) = applyWrites (writeFile fs w) ws := rfl
      rw [hstep, ih _ p hp.2]
      simp [writeFile, hp.1]

/-- Last-write-wins: when the written paths are pairwise distinct, each
write of the batch is visible in the final filesystem, whatever was there
before (overwrite). -/
theorem applyWrites_wins : ∀ (ws : List FsWrite),
    (ws.map FsWrite.path).Nodup →
    ∀ (fs : Fs) (w : FsWrite), w ∈ ws → applyWrites fs ws w.path = some w.content := by
  intro ws
  induction ws with
  | nil =>
      intro _ fs w h
      cases h
  | cons x ws ih =>
      intro hnd fs w hw
      simp only [List.map_cons, List.nodup_cons] at hnd
      have hstep : applyWrites fs (x :: ws) = applyWrites (writeFile fs x) ws := rfl
      rcases List.mem_cons.mp hw with rfl | hw'
      · rw [hstep, applyWrites_not_mem ws _ _ hnd.1]
        simp [writeFile]
      · rw [hstep]
        exact ih hnd.2 _ w hw'

/-- When every entry of a list synthesizes successfully, the driver reports
no error and writes one file per entry, at the canonical path, in order. -/
theorem runBatchGo_ok_shape (net : String → TtsOutcome) : ∀ (es : List BatchEntry),
    (∀ e ∈ es, ∃ b, synthesize_awarri_tts net e.text = .ok b) →
    (runBatchGo net es).2 = none ∧
    (runBatchGo net es).1.map FsWrite.path =
      es.map (fun e => entryPath e.category e.index) := by
  intro es
  induction es with
  | nil =>
      intro _
      simp [runBatchGo]
  | cons e es ih =>
      intro h
      obtain ⟨b, hb⟩ := h e (by simp)
      obtain ⟨ih1, ih2⟩ := ih (fun x hx => h x (by simp [hx]))
      simp [runBatchGo, hb, ih1, ih2]

/-- C4 counterexample: the claim says one entry's failure is recorded as
that entry's outcome and the driver proceeds, yielding one result per
entry; but on a batch whose very first synthesis call raises, the driver
aborts with the propagated exception, writes nothing and yields no
per-entry results, although the catalog has 13 entries. -/
theorem claim_C4_counterexample :
    run_batch_tts (fun _ => .requestException "Connection refused") =
      ([], some "Connection refused") ∧
    batchEntries.length = 13 :=
  ⟨rfl, rfl⟩

/-- C4 as amended: there is no per-entry failure isolation. A synthesis
failure propagates out of the loop and aborts the batch: exactly the
entries strictly before the first failing entry get their file written (in
catalog order), and the driver finishes without error exactly when every
entry synthesizes successfully. -/
theorem claim_C4_amended (net : String → TtsOutcome) (es : List BatchEntry) :
    (runBatchGo net es).1.map FsWrite.path =
      (es.takeWhile (entryOk net)).map (fun e => entryPath e.category e.index) ∧
    ((runBatchGo net es).2 = none ↔ ∀ e ∈ es, entryOk net e = true) := by
  induction es with
  | nil => simp [runBatchGo]
  | cons e es ih =>
      obtain ⟨ih1, ih2⟩ := ih
      cases hsyn : synthesize_awarri_tts net e.text with
      | error msg =>
          have hok : entryOk net e = false := by
            simp only [entryOk, hsyn]
            rfl
          simp [runBatchGo, hsyn, hok, List.takeWhile_cons]
      | ok bytes =>
          have hok : entryOk net e = true := by
            simp only [entryOk, hsyn]
            rfl
          simp [runBatchGo, hsyn, hok, List.takeWhile_cons, ih1, ih2]

/-- C6: over the fixed 13-entry catalog (5 short + 4 medium + 4 long), with
every synthesis succeeding, the driver reports no error and writes exactly
13 files named `Hausa_{tier}_audio{N}.wav` in catalog order (short N=1..5,
then medium N=1..4, then long N=1..4), each write overwriting whatever the
filesystem held at that path. -/
theorem claim_C6 (f : String → List Nat) (q : String → ℚ) :
    (run_batch_tts (allSuccessNet f q)).2 = none ∧
    (run_batch_tts (allSuccessNet f q)).1.map FsWrite.path =
      ["hausa_audio/Hausa_short_audio1.wav",
       "hausa_audio/Hausa_short_audio2.wav",
       "hausa_audio/Hausa_short_audio3.wav",
       "hausa_audio/Hausa_short_audio4.wav",
       "hausa_audio/Hausa_short_audio5.wav",
       "hausa_audio/Hausa_medium_audio1.wav",
       "hausa_audio/Hausa_medium_audio2.wav",
       "hausa_audio/Hausa_medium_audio3.wav",
       "hausa_audio/Hausa_medium_audio4.wav",
       "hausa_audio/Hausa_long_audio1.wav",
       "hausa_audio/Hausa_long_audio2.wav",
       "hausa_audio/Hausa_long_audio3.wav",
       "hausa_audio/Hausa_long_audio4.wav"] ∧
    (run_batch_tts (allSuccessNet f q)).1.length = 13 ∧
    ∀ (fs : Fs), ∀ w ∈ (run_batch_tts (allSuccessNet f q)).1,
        applyWrites fs (run_batch_tts (allSuccessNet f q)).1 w.path = some w.content := by
  have hsyn : ∀ e ∈ batchEntries, ∃ b,
      synthesize_awarri_tts (allSuccessNet f q) e.text = .ok b :=
    fun e _ => ⟨f e.text, by simp [synthesize_awarri_tts, allSuccessNet]⟩
  obtain ⟨h2, h1⟩ := runBatchGo_ok_shape (allSuccessNet f q) batchEntries hsyn
  have hnames : batchEntries.map (fun e => entryPath e.category e.index) =
      ["hausa_audio/Hausa_short_audio1.wav",
       "hausa_audio/Hausa_short_audio2.wav",
       "hausa_audio/Hausa_short_audio3.wav",
       "hausa_audio/Hausa_short_audio4.wav",
       "hausa_audio/Hausa_short_audio5.wav",
       "hausa_audio/Hausa_medium_audio1.wav",
       "hausa_audio/Hausa_medium_audio2.wav",
       "hausa_audio/Hausa_medium_audio3.wav",
       "hausa_audio/Hausa_medium_audio4.wav",
       "hausa_audio/Hausa_long_audio1.wav",
       "hausa_audio/Hausa_long_audio2.wav",
       "hausa_audio/Hausa_long_audio3.wav",
       "hausa_audio/Hausa_long_audio4.wav"] := by rfl
  have hmap : (run_batch_tts (allSuccessNet f q)).1.map FsWrite.path =
      ["hausa_audio/Hausa_short_audio1.wav",
       "hausa_audio/Hausa_short_audio2.wav",
       "hausa_audio/Hausa_short_audio3.wav",
       "hausa_audio/Hausa_short_audio4.wav",
       "hausa_audio/Hausa_short_audio5.wav",
       "hausa_audio/Hausa_medium_audio1.wav",
       "hausa_audio/Hausa_medium_audio2.wav",
       "hausa_audio/Hausa_medium_audio3.wav",
       "hausa_audio/Hausa_medium_audio4.wav",
       "hausa_audio/Hausa_long_audio1.wav",
       "hausa_audio/Hausa_long_audio2.wav",
       "hausa_audio/Hausa_long_audio3.wav",
       "hausa_audio/Hausa_long_audio4.wav"] := by
    rw [show (run_batch_tts (allSuccessNet f q)).1 = (runBatchGo (allSuccessNet f q) batchEntries).1 from rfl,
      h1, hnames]
  refine ⟨h2, hmap, ?_, ?_⟩
  · have := congrArg List.length hmap
    simpa using this
  · intro fs w hw
    have hnd : ((run_batch_tts (allSuccessNet f q)).1.map FsWrite.path).Nodup := by
      rw [hmap]
      decide
    exact applyWrites_wins _ hnd fs w hw

end Awarri
